import Mathlib

/-!
Verification of the MangaPark chapter downloader (`mangapark_dl.py`).

This file gives a shallow embedding of the core pipeline of
`MangaParkDownloader`:

* `download_image`  — per-image fetch with bounded retries and backoff
  (source lines 116–151);
* `get_chapter_images` — page scrape with selector fallback and URL
  filtering (source lines 153–200);
* `quit_driver` — safe session teardown (source lines 105–114);
* `download_chapter` — the orchestrator (source lines 202–257).

Effects (HTTP requests, sleeps, directory creation, driver lifecycle)
are made observable as explicit event traces; the environment's
nondeterminism (network outcomes per attempt, page-load result, driver
creation success) is a parameter of each function.  Machine behaviour
of Python here is plain: `range(n)` iterates `max n 0` times, `a or b`
and `if s` follow Python truthiness on optional strings, `open(p,'wb')`
truncates the destination before writing.
-/

namespace MangaparkDl

/-- `listStartsWith l pat` is true when `pat` is an initial segment of `l`
(character-list version of substring matching used below). -/
def listStartsWith : List Char → List Char → Bool
  | _, [] => true
  | [], _ :: _ => false
  | a :: as, b :: bs => a == b && listStartsWith as bs

/-- `listHasSub l pat`: `pat` occurs contiguously somewhere in `l`. -/
def listHasSub : List Char → List Char → Bool
  | [], pat => pat.isEmpty
  | a :: as, pat => listStartsWith (a :: as) pat || listHasSub as pat

/-- Python's `pat in s` substring test on strings. -/
def strContains (s pat : String) : Bool :=
  listHasSub s.data pat.data

/-- The domain marker the source filters URLs with: `'mangapark' in src`. -/
def marker : String := "mangapark"

/-! ## Image fetcher (`download_image`, source lines 116–151)

One call performs up to `retries` attempts (`for attempt in range(retries)`).
Each attempt issues one HTTP GET; the environment decides its outcome:

* the GET succeeds with some byte content, which is streamed to the
  destination file (opened with `'wb'`, truncating it) — return `True`;
* the GET (or `raise_for_status`) raises before the file is opened —
  the destination is untouched by this attempt;
* an exception is raised while streaming the body — the destination has
  been truncated and holds the bytes written so far.

After a failed attempt `k` with `attempt < retries - 1`, the code sleeps
`2 ** attempt` seconds. -/

/-- Outcome of a single fetch attempt, chosen by the environment.
Bytes are modelled as `List Nat`. -/
inductive AttemptOutcome where
  | ok (content : List Nat)
  | failBeforeOpen
  | failDuringWrite (written : List Nat)
  deriving Repr, DecidableEq

/-- Whether the attempt outcome is a success. -/
def AttemptOutcome.isOk : AttemptOutcome → Bool
  | .ok _ => true
  | _ => false

/-- Observable events of one `download_image` call: `attempt k` is the
HTTP GET of attempt `k` (0-indexed), `sleep d` a backoff pause of `d`
seconds. -/
inductive FetchEvent where
  | attempt (k : Nat)
  | sleep (d : Nat)
  deriving Repr, DecidableEq

/-- Result of a `download_image` call: the returned boolean, the state of
the destination file afterwards (`none` = no file), and the event trace. -/
structure FetchResult where
  success : Bool
  fileState : Option (List Nat)
  events : List FetchEvent
  deriving Repr, DecidableEq

/-- The retry loop of `download_image`: `k` is the current 0-indexed
attempt, `remaining` how many loop iterations are left
(`remaining = retries - k` throughout), `file` the destination state.
The backoff sleep happens only when `attempt < retries - 1`
(the comparison is on Python ints, hence on `Int`). -/
def downloadImageGo (env : Nat → AttemptOutcome) (retries : Int) :
    Nat → Nat → Option (List Nat) → FetchResult
  | _, 0, file => { success := false, fileState := file, events := [] }
  | k, r + 1, file =>
    match env k with
    | .ok content =>
        { success := true, fileState := some content,
          events := [.attempt k] }
    | .failBeforeOpen =>
        let rest := downloadImageGo env retries (k + 1) r file
        { success := rest.success, fileState := rest.fileState,
          events :=
            (if (k : Int) < retries - 1 then
              [FetchEvent.attempt k, FetchEvent.sleep (2 ^ k)]
            else [FetchEvent.attempt k]) ++ rest.events }
    | .failDuringWrite w =>
        let rest := downloadImageGo env retries (k + 1) r (some w)
        { success := rest.success, fileState := rest.fileState,
          events :=
            (if (k : Int) < retries - 1 then
              [FetchEvent.attempt k, FetchEvent.sleep (2 ^ k)]
            else [FetchEvent.attempt k]) ++ rest.events }

/-- `download_image(image_url, save_path, retries)`: runs the retry loop
from attempt 0 with the destination file in state `file0`.  `retries` is a
Python int; `range(retries)` iterates `retries.toNat` times.  The URL and
the request headers do not influence control flow and are abstracted into
`env`. -/
def download_image (env : Nat → AttemptOutcome) (retries : Int)
    (file0 : Option (List Nat)) : FetchResult :=
  downloadImageGo env retries 0 retries.toNat file0

/-- Number of HTTP attempts recorded in a fetch trace. -/
def attemptCount (evs : List FetchEvent) : Nat :=
  (evs.filter fun e => match e with | .attempt _ => true | _ => false).length

/-- The shape every non-empty `download_image` trace has: attempts
`k, k+1, …, k+m`, a backoff sleep of `2 ^ j` between attempt `j` and
attempt `j+1`, and no sleep after the final attempt. -/
def backoffBlocks : Nat → Nat → List FetchEvent
  | k, 0 => [.attempt k]
  | k, m + 1 => .attempt k :: .sleep (2 ^ k) :: backoffBlocks (k + 1) m

/-! ## Page scraper (`get_chapter_images`, source lines 153–200)

The rendered document is a list of `<img>` elements in document order.
Each element carries an optional `src` attribute, an optional `data-src`
attribute, and whether it sits inside the `.reader-main` container.
Selenium's `get_attribute` yields `None` for an absent attribute; Python's
`or` and `if` treat `None` and `""` as falsy. -/

/-- An `<img>` element of the rendered page, in document order. -/
structure ImgElement where
  src : Option String
  dataSrc : Option String
  inReaderMain : Bool
  deriving Repr, DecidableEq

/-- CSS selector `img[src*='mangapark']`: elements whose `src` attribute
is present and contains the domain marker. -/
def selPrimary (page : List ImgElement) : List ImgElement :=
  page.filter fun e =>
    match e.src with
    | some s => strContains s marker
    | none => false

/-- CSS selector `.reader-main img`: elements inside the reader container. -/
def selReaderMain (page : List ImgElement) : List ImgElement :=
  page.filter (·.inReaderMain)

/-- CSS selector `img[data-src]`: elements with a `data-src` attribute. -/
def selDataSrc (page : List ImgElement) : List ImgElement :=
  page.filter (·.dataSrc.isSome)

/-- Python truthiness of an optional string: `None` and `""` are falsy. -/
def truthy : Option String → Bool
  | some s => !s.isEmpty
  | none => false

/-- Python `a or b` on optional strings (falsy left operand selects `b`). -/
def pyOr (a b : Option String) : Option String :=
  if truthy a then a else b

/-- `img.get_attribute('src') or img.get_attribute('data-src')`. -/
def effectiveUrl (e : ImgElement) : Option String :=
  pyOr e.src e.dataSrc

/-- The URL-collection loop: for each element take the effective URL and
keep it when it is truthy and contains the domain marker
(`if src and 'mangapark' in src`). -/
def collectUrls (els : List ImgElement) : List String :=
  els.filterMap fun e =>
    match effectiveUrl e with
    | some s => if !s.isEmpty && strContains s marker then some s else none
    | none => none

/-- What loading the chapter page yields, decided by the environment:
the wait for an `<img>` element times out (`TimeoutException`), some other
exception is raised during navigation or extraction, or the page renders
with a list of `<img>` elements in document order. -/
inductive PageLoad where
  | timeout
  | error
  | loaded (imgs : List ImgElement)
  deriving Repr

/-- `get_chapter_images(chapter_url)`: on timeout or any exception the
handler returns `[]`; otherwise the three selectors are tried in order,
the first non-empty match set is kept, and its URLs are collected. -/
def get_chapter_images : PageLoad → List String
  | .timeout => []
  | .error => []
  | .loaded imgs =>
      let els := selPrimary imgs
      let els := if els.isEmpty then selReaderMain imgs else els
      let els := if els.isEmpty then selDataSrc imgs else els
      collectUrls els

/-! ## Session teardown (`quit_driver`, source lines 105–114)

`self.driver` is `None` or a live handle (modelled `Option Unit`).  When a
handle is live, `driver.quit()` is attempted; whether it raises is the
environment's choice (`quitOk`), and any exception is caught and logged.
The `finally` block sets `self.driver = None` in every case, so the
function always returns normally. -/

/-- Events of the chapter orchestrator and the teardown. -/
inductive ChapterEvent where
  | createDriver (ok : Bool)
  | mkdirChapter (name : String)
  | extractImages
  | fetchPage (i : Nat)
  | sleepSec (n : Nat)
  | quitDriverCall
  | driverQuit
  deriving Repr, DecidableEq

/-- `quit_driver()`: returns the new value of `self.driver` and the trace.
`driverQuit` records the `driver.quit()` invocation on a live handle; it is
emitted whether or not the quit raises (`quitOk`), since the exception is
caught inside.  The resulting handle is always `none`. -/
def quit_driver (quitOk : Bool) : Option Unit → Option Unit × List ChapterEvent
  | some _ =>
      match (if quitOk then Except.ok () else Except.error ()) with
      | Except.ok _ => (none, [.driverQuit])
      | Except.error _ => (none, [.driverQuit])
  | none => (none, [])

/-! ## Chapter orchestrator (`download_chapter`, source lines 202–257)

```
try:
    self.driver = self.create_driver()          # may raise
    if not chapter_name:
        chapter_name = f"chapter_{int(time.time())}"
    chapter_dir = os.path.join(self.download_path, chapter_name)
    os.makedirs(chapter_dir, exist_ok=True)
    image_urls = self.get_chapter_images(chapter_url)
    if not image_urls:
        return False
    success_count = 0
    for i, image_url in enumerate(image_urls, 1):
        filename = f"page_{i:03d}.jpg"
        if self.download_image(image_url, save_path):
            success_count += 1
        time.sleep(1)
    return success_count > 0
except Exception:
    return False
finally:
    self.quit_driver()
    time.sleep(5)
```

The only statement in the `try` block that can raise in this model is
`create_driver` (the scraper and the fetcher catch their own exceptions
and return normally).  Whether it succeeds is the environment's choice. -/

/-- The environment of one `download_chapter` call: whether `create_driver`
succeeds, what the page load yields, the network outcome of every fetch
attempt (`fetch i k` is attempt `k`, 0-indexed, for 1-based page `i`), and
whether `driver.quit()` raises at teardown. -/
structure ChapterEnv where
  driverOk : Bool
  page : PageLoad
  fetch : Nat → Nat → AttemptOutcome
  quitOk : Bool

/-- Python `f"{n:03d}"` for a natural number: decimal digits left-padded
with zeros to width at least 3. -/
def pad3 (n : Nat) : String :=
  let s := toString n
  if s.length ≥ 3 then s
  else if s.length = 2 then "0" ++ s
  else "00" ++ s

/-- `f"page_{i:03d}.jpg"`. -/
def pageFilename (i : Nat) : String :=
  "page_" ++ pad3 i ++ ".jpg"

/-- Chapter-name resolution: the supplied name, or
`f"chapter_{int(time.time())}"` synthesized from the current time. -/
def resolveName (chapterName : Option String) (now : Nat) : String :=
  match chapterName with
  | some n => n
  | none => "chapter_" ++ toString now

/-- The per-image loop of `download_chapter`: pages are numbered from `i`
(the loop starts at 1 via `enumerate(image_urls, 1)`); each page is fetched
with `download_image` at its default `retries=3` into a fresh destination
(the chapter directory starts empty), followed by `time.sleep(1)`.
Returns the success count, the trace, and the files present in the chapter
directory (name, bytes) in page order. -/
def downloadLoopGo (fetch : Nat → Nat → AttemptOutcome) :
    List String → Nat → Nat × List ChapterEvent × List (String × List Nat)
  | [], _ => (0, [], [])
  | _ :: rest, i =>
      let r := download_image (fetch i) 3 none
      let tail := downloadLoopGo fetch rest (i + 1)
      ((if r.success then 1 else 0) + tail.1,
       ChapterEvent.fetchPage i :: ChapterEvent.sleepSec 1 :: tail.2.1,
       (match r.fileState with
        | some c => [(pageFilename i, c)]
        | none => []) ++ tail.2.2)

/-- Result of a `download_chapter` call: the returned boolean, the trace,
the files in the chapter directory afterwards, and `self.driver`. -/
structure ChapterResult where
  success : Bool
  events : List ChapterEvent
  files : List (String × List Nat)
  driver : Option Unit
  deriving Repr

/-- `download_chapter(chapter_url, chapter_name)`.  `now` is
`int(time.time())` at name resolution.  The three control paths of the
source: `create_driver` raises (caught by `except`, returns `False`),
extraction yields no URLs (returns `False`), or the download loop runs and
the call returns `success_count > 0`.  The `finally` block always calls
`quit_driver` and sleeps 5 seconds. -/
def download_chapter (env : ChapterEnv) (chapterName : Option String)
    (now : Nat) : ChapterResult :=
  if env.driverOk then
    let name := resolveName chapterName now
    let urls := get_chapter_images env.page
    if urls.isEmpty then
      let q := quit_driver env.quitOk (some ())
      { success := false,
        events := [ChapterEvent.createDriver true,
                   ChapterEvent.mkdirChapter name,
                   ChapterEvent.extractImages] ++
          [ChapterEvent.quitDriverCall] ++ q.2 ++ [ChapterEvent.sleepSec 5],
        files := [], driver := q.1 }
    else
      let loop := downloadLoopGo env.fetch urls 1
      let q := quit_driver env.quitOk (some ())
      { success := decide (0 < loop.1),
        events := [ChapterEvent.createDriver true,
                   ChapterEvent.mkdirChapter name,
                   ChapterEvent.extractImages] ++ loop.2.1 ++
          [ChapterEvent.quitDriverCall] ++ q.2 ++ [ChapterEvent.sleepSec 5],
        files := loop.2.2, driver := q.1 }
  else
    let q := quit_driver env.quitOk none
    { success := false,
      events := [ChapterEvent.createDriver false] ++
        [ChapterEvent.quitDriverCall] ++ q.2 ++ [ChapterEvent.sleepSec 5],
      files := [], driver := q.1 }

/-- Count of an event in a chapter trace. -/
def countEv (evs : List ChapterEvent) (e : ChapterEvent) : Nat :=
  evs.count e

/-- Destination-file state after a run of failed attempts: a mid-stream
failure truncates the file and leaves the bytes written so far; a failure
before the file is opened leaves it untouched.  `k` is the current attempt,
the second argument the attempts left. -/
def lastWriteState (env : Nat → AttemptOutcome) :
    Nat → Nat → Option (List Nat) → Option (List Nat)
  | _, 0, file => file
  | k, r + 1, file =>
    match env k with
    | .failDuringWrite w => lastWriteState env (k + 1) r (some w)
    | _ => lastWriteState env (k + 1) r file

/-! ## Concrete fixtures used in counterexamples and witnesses -/

/-- A page image hosted on the source site, matched by the primary
selector. -/
def hostedImg (k : Nat) : ImgElement :=
  { src := some ("https://mangapark.io/p" ++ toString k ++ ".jpg"),
    dataSrc := none, inReaderMain := false }

/-- A rendered page with five images matched by the primary selector. -/
def fivePage : List ImgElement :=
  [hostedImg 1, hostedImg 2, hostedImg 3, hostedImg 4, hostedImg 5]

/-- A reader-container image whose `src` points off-site, so the primary
selector misses it and its URL lacks the domain marker. -/
def offSiteReaderImg (k : Nat) : ImgElement :=
  { src := some ("https://cdn.example.com/p" ++ toString k ++ ".jpg"),
    dataSrc := none, inReaderMain := true }

/-- Four reader-container images whose URLs lack the domain marker. -/
def offSiteReaderPage : List ImgElement :=
  [offSiteReaderImg 1, offSiteReaderImg 2, offSiteReaderImg 3,
   offSiteReaderImg 4]

/-- A reader-container image with no `src` and a lazily-loaded source on
the source site in `data-src`. -/
def lazyReaderImg (k : Nat) : ImgElement :=
  { src := none,
    dataSrc := some ("https://mangapark.io/lazy" ++ toString k ++ ".jpg"),
    inReaderMain := true }

/-- Four reader-container images carrying the domain marker in `data-src`
only, so the primary selector matches nothing. -/
def lazyReaderPage : List ImgElement :=
  [lazyReaderImg 1, lazyReaderImg 2, lazyReaderImg 3, lazyReaderImg 4]

/-- Environment in which pages 2 and 4 of five fail permanently without
ever writing a byte, and the other three pages succeed first try. -/
def envPartial : ChapterEnv :=
  { driverOk := true, page := .loaded fivePage,
    fetch := fun i _ =>
      if i = 2 ∨ i = 4 then .failBeforeOpen else .ok [i],
    quitOk := true }

/-- Environment with five discoverable images and no fetch failures. -/
def envAllOk : ChapterEnv :=
  { driverOk := true, page := .loaded fivePage,
    fetch := fun i _ => .ok [i], quitOk := true }

/-- Environment whose page load times out, so extraction yields no URLs. -/
def envNoImages : ChapterEnv :=
  { driverOk := true, page := .timeout,
    fetch := fun _ _ => .failBeforeOpen, quitOk := true }

/-- Environment in which `create_driver` raises. -/
def envNoDriver : ChapterEnv :=
  { driverOk := false, page := .timeout,
    fetch := fun _ _ => .failBeforeOpen, quitOk := true }

/-! ## Theorems -/

/-- Shape of the retry-loop trace: whenever at least one attempt runs
(`0 < r`) and the loop is entered with the invariant
`k + r = retries.toNat` of `download_image`, the trace is attempts
`k … k+m` with a backoff sleep of `2 ^ j` between attempt `j` and attempt
`j+1` and nothing after the last attempt. -/
theorem downloadImageGo_shape (env : Nat → AttemptOutcome) (retries : Int) :
    ∀ r k (file : Option (List Nat)), 0 < r → k + r = retries.toNat →
      ∃ m, m + 1 ≤ r ∧
        (downloadImageGo env retries k r file).events = backoffBlocks k m := by
  intro r
  induction r with
  | zero => intro k file h _; omega
  | succ r ih =>
    intro k file _ hk
    cases henv : env k with
    | ok content =>
        exact ⟨0, by omega, by simp [downloadImageGo, henv, backoffBlocks]⟩
    | failBeforeOpen =>
        rcases Nat.eq_zero_or_pos r with hr | hr
        · subst hr
          have hcond : ¬ ((k : Int) < retries - 1) := by omega
          exact ⟨0, by omega,
            by simp [downloadImageGo, henv, hcond, backoffBlocks]⟩
        · have hcond : (k : Int) < retries - 1 := by omega
          obtain ⟨m, hm, hev⟩ := ih (k + 1) file hr (by omega)
          exact ⟨m + 1, by omega,
            by simp [downloadImageGo, henv, hcond, backoffBlocks, hev]⟩
    | failDuringWrite w =>
        rcases Nat.eq_zero_or_pos r with hr | hr
        · subst hr
          have hcond : ¬ ((k : Int) < retries - 1) := by omega
          exact ⟨0, by omega,
            by simp [downloadImageGo, henv, hcond, backoffBlocks]⟩
        · have hcond : (k : Int) < retries - 1 := by omega
          obtain ⟨m, hm, hev⟩ := ih (k + 1) (some w) hr (by omega)
          exact ⟨m + 1, by omega,
            by simp [downloadImageGo, henv, hcond, backoffBlocks, hev]⟩

/-- A backoff-shaped trace with final attempt `k + m` records `m + 1`
HTTP attempts. -/
theorem attemptCount_backoffBlocks :
    ∀ m k, attemptCount (backoffBlocks k m) = m + 1 := by
  intro m
  induction m with
  | zero => intro k; simp [backoffBlocks, attemptCount]
  | succ m ih =>
      intro k
      simp [backoffBlocks, attemptCount] at ih ⊢
      exact ih (k + 1)

/-- C2 (amended): every `download_image` call makes at most
`retries` attempts, and whenever at least one attempt runs the trace is
`backoffBlocks 0 m` for some `m < retries`: attempts `0 … m`, a sleep of
`2 ^ k` between attempt `k` and attempt `k + 1` (so the delay *before*
attempt `k` is `2 ^ (k - 1)`, not `2 ^ k`), delays between attempts only,
and no delay after the final attempt. -/
theorem download_image_backoff_schedule :
    ∀ (env : Nat → AttemptOutcome) (retries : Int)
      (file0 : Option (List Nat)),
      attemptCount (download_image env retries file0).events ≤
        retries.toNat ∧
      (0 < retries.toNat →
        ∃ m, m + 1 ≤ retries.toNat ∧
          (download_image env retries file0).events = backoffBlocks 0 m) := by
  intro env retries file0
  rcases Nat.eq_zero_or_pos retries.toNat with h0 | h0
  · refine ⟨?_, fun h => absurd h (by omega)⟩
    simp [download_image, h0, downloadImageGo, attemptCount]
  · obtain ⟨m, hm, hev⟩ :=
      downloadImageGo_shape env retries retries.toNat 0 file0 h0 (by omega)
    refine ⟨?_, fun _ => ⟨m, hm, ?_⟩⟩
    · have : attemptCount (download_image env retries file0).events = m + 1 := by
        simp [download_image, hev, attemptCount_backoffBlocks]
      omega
    · simpa [download_image] using hev

/-- Witness for the backoff-schedule theorem at three failing attempts. -/
theorem download_image_backoff_schedule_witness :
    ∃ m, m + 1 ≤ (3 : Int).toNat ∧
      (download_image (fun _ => AttemptOutcome.failBeforeOpen) 3
        none).events = backoffBlocks 0 m :=
  (download_image_backoff_schedule (fun _ => AttemptOutcome.failBeforeOpen)
    3 none).2 (by decide)

/-- C2 counterexample: with `retries = 3` and every attempt failing, the
trace is attempt 0, sleep `2^0`, attempt 1, sleep `2^1`, attempt 2 — so the
delay before attempt 1 (0-indexed) is `2^0 = 1` time unit, not `2^1` as
the claim states. -/
theorem download_image_delay_counterexample :
    (download_image (fun _ => AttemptOutcome.failBeforeOpen) 3 none).events =
      [FetchEvent.attempt 0, FetchEvent.sleep (2 ^ 0), FetchEvent.attempt 1,
       FetchEvent.sleep (2 ^ 1), FetchEvent.attempt 2] ∧
    (2 ^ 0 : Nat) ≠ 2 ^ 1 := by decide

/-- C8: a page load that times out before any `<img>` is present, and any
exception during navigation or extraction, both yield `[]` from
`get_chapter_images` — the handler returns normally instead of
propagating the fault. -/
theorem get_chapter_images_fault_yields_empty :
    get_chapter_images PageLoad.timeout = [] ∧
    get_chapter_images PageLoad.error = [] :=
  ⟨rfl, rfl⟩

/-- C10: with `retries ≤ 0` the loop `for attempt in range(retries)` never
runs, so `download_image` performs no HTTP request, leaves the destination
file unchanged, and returns `False`. -/
theorem download_image_nonpos_retries :
    ∀ (env : Nat → AttemptOutcome) (retries : Int)
      (file0 : Option (List Nat)),
      retries ≤ 0 →
      download_image env retries file0 =
        { success := false, fileState := file0, events := [] } := by
  intro env retries file0 h
  have h0 : retries.toNat = 0 := by omega
  simp [download_image, h0, downloadImageGo]

/-- Witness: `download_image` at `retries = -2` makes no attempt and
creates no file. -/
theorem download_image_nonpos_retries_witness :
    download_image (fun _ => AttemptOutcome.ok [1]) (-2) none =
      { success := false, fileState := none, events := [] } :=
  download_image_nonpos_retries (fun _ => AttemptOutcome.ok [1]) (-2) none
    (by decide)

/-- Retry loop under total failure: the call returns `False` and the
destination file ends in the state left by the last attempt that opened
it. -/
theorem downloadImageGo_all_fail (env : Nat → AttemptOutcome)
    (retries : Int) (h : ∀ k, (env k).isOk = false) :
    ∀ r k (file : Option (List Nat)),
      (downloadImageGo env retries k r file).success = false ∧
      (downloadImageGo env retries k r file).fileState =
        lastWriteState env k r file := by
  intro r
  induction r with
  | zero => intro k file; simp [downloadImageGo, lastWriteState]
  | succ r ih =>
    intro k file
    cases henv : env k with
    | ok content =>
        have hk := h k
        rw [henv] at hk
        simp [AttemptOutcome.isOk] at hk
    | failBeforeOpen =>
        simpa [downloadImageGo, lastWriteState, henv] using ih (k + 1) file
    | failDuringWrite w =>
        simpa [downloadImageGo, lastWriteState, henv] using ih (k + 1) (some w)

/-- C3 (amended): when every attempt fails, `download_image` returns
`False`, and the destination file is left in the state written by the last
attempt that opened it (`lastWriteState`): a partial write is overwritten
only by a *later* attempt that reaches the write stage, and bytes written
by the final attempt to open the file persist after exhaustion — the
destination is untouched only when no failing attempt opened it. -/
theorem download_image_exhausted :
    ∀ (env : Nat → AttemptOutcome) (retries : Int)
      (file0 : Option (List Nat)),
      (∀ k, (env k).isOk = false) →
      (download_image env retries file0).success = false ∧
      (download_image env retries file0).fileState =
        lastWriteState env 0 retries.toNat file0 := by
  intro env retries file0 h
  exact downloadImageGo_all_fail env retries h retries.toNat 0 file0

/-- Witness: three clean failures return `False` and leave no file. -/
theorem download_image_exhausted_witness :
    (download_image (fun _ => AttemptOutcome.failBeforeOpen) 3
      none).success = false ∧
    (download_image (fun _ => AttemptOutcome.failBeforeOpen) 3
      none).fileState =
      lastWriteState (fun _ => AttemptOutcome.failBeforeOpen) 0
        (3 : Int).toNat none :=
  download_image_exhausted (fun _ => AttemptOutcome.failBeforeOpen) 3 none
    (fun _ => rfl)

/-- C3 counterexample: with `retries = 3` and every attempt failing while
streaming after writing the byte `7`, the call returns `False` yet a
partial file with content `[7]` remains at the destination. -/
theorem download_image_partial_file_counterexample :
    (download_image (fun _ => AttemptOutcome.failDuringWrite [7]) 3
      none).success = false ∧
    (download_image (fun _ => AttemptOutcome.failDuringWrite [7]) 3
      none).fileState = some [7] := by
  decide

/-- The per-image loop emits only `fetchPage` and `sleepSec` events. -/
theorem downloadLoopGo_count_aux (fetch : Nat → Nat → AttemptOutcome)
    (e : ChapterEvent) (h1 : ∀ i, e ≠ ChapterEvent.fetchPage i)
    (h2 : ∀ n, e ≠ ChapterEvent.sleepSec n) :
    ∀ (urls : List String) (i : Nat),
      (downloadLoopGo fetch urls i).2.1.count e = 0 := by
  intro urls
  induction urls with
  | nil => intro i; simp [downloadLoopGo]
  | cons u rest ih =>
      intro i
      simp [downloadLoopGo, List.count_cons, h1 i, h2 1, ih (i + 1)]

/-- `quit_driver` on a live handle attempts `driver.quit()` and clears the
handle, whether or not the quit raises. -/
theorem quit_driver_some (quitOk : Bool) :
    quit_driver quitOk (some ()) = (none, [ChapterEvent.driverQuit]) := by
  cases quitOk <;> rfl

/-- C1: session release runs exactly once per `download_chapter`
invocation — every trace holds exactly one `quitDriverCall`, and the
number of actual `driver.quit()` teardowns equals the number of successful
driver acquisitions, on every control path.  Moreover `quit_driver` itself
always returns normally with the handle cleared (also when `driver.quit()`
raises), is idempotent, and is a no-op when no session is active. -/
theorem quit_driver_exactly_once :
    (∀ (env : ChapterEnv) (chapterName : Option String) (now : Nat),
      countEv (download_chapter env chapterName now).events
          ChapterEvent.quitDriverCall = 1 ∧
      countEv (download_chapter env chapterName now).events
          ChapterEvent.driverQuit =
        countEv (download_chapter env chapterName now).events
          (ChapterEvent.createDriver true)) ∧
    (∀ (quitOk : Bool) (st : Option Unit),
      (quit_driver quitOk st).1 = none) ∧
    (∀ (quitOk : Bool) (st : Option Unit),
      quit_driver quitOk ((quit_driver quitOk st).1) = (none, [])) ∧
    (∀ quitOk : Bool, quit_driver quitOk none = (none, [])) := by
  refine ⟨?_, ?_, ?_, ?_⟩
  · intro env chapterName now
    cases hdr : env.driverOk with
    | false =>
        simp [download_chapter, hdr, countEv, quit_driver, List.count_cons]
    | true =>
        cases hurls : (get_chapter_images env.page).isEmpty with
        | true =>
            simp [download_chapter, hdr, hurls, countEv, quit_driver_some,
              List.count_cons, List.count_append]
        | false =>
            have hq := downloadLoopGo_count_aux env.fetch
              ChapterEvent.quitDriverCall (by intro i h; cases h)
              (by intro n h; cases h) (get_chapter_images env.page) 1
            have hd := downloadLoopGo_count_aux env.fetch
              ChapterEvent.driverQuit (by intro i h; cases h)
              (by intro n h; cases h) (get_chapter_images env.page) 1
            have hc := downloadLoopGo_count_aux env.fetch
              (ChapterEvent.createDriver true) (by intro i h; cases h)
              (by intro n h; cases h) (get_chapter_images env.page) 1
            simp [download_chapter, hdr, hurls, countEv, quit_driver_some,
              List.count_cons, List.count_append, hq, hd, hc]
  · intro quitOk st
    cases st with
    | none => rfl
    | some u => cases u; rw [quit_driver_some]
  · intro quitOk st
    cases st with
    | none => rfl
    | some u => cases u; rw [quit_driver_some]; rfl
  · intro quitOk; rfl

/-- A non-empty list is not `isEmpty`. -/
theorem isEmpty_eq_false_of_ne_nil {α : Type} {l : List α} (h : l ≠ []) :
    l.isEmpty = false := by
  cases l with
  | nil => exact absurd rfl h
  | cons a t => rfl

/-- The collection loop keeps at most one URL per element. -/
theorem collectUrls_length_le (els : List ImgElement) :
    (collectUrls els).length ≤ els.length :=
  List.length_filterMap_le _ _

/-- The collection loop returns exactly the effective URLs that are
non-empty and contain the domain marker, in element order — on any
element list, marker-bearing or not. -/
theorem collectUrls_eq_filter :
    ∀ els : List ImgElement,
      collectUrls els =
        (els.filterMap effectiveUrl).filter
          (fun s => !s.isEmpty && strContains s marker) := by
  intro els
  induction els with
  | nil => rfl
  | cons e rest ih =>
      cases hs : effectiveUrl e with
      | none =>
          simpa [collectUrls, List.filterMap_cons, hs] using ih
      | some s =>
          cases hie : s.isEmpty with
          | true =>
              simpa [collectUrls, List.filterMap_cons, List.filter_cons,
                hs, hie] using ih
          | false =>
              cases hst : strContains s marker with
              | true =>
                  simpa [collectUrls, List.filterMap_cons, List.filter_cons,
                    hs, hie, hst] using ih
              | false =>
                  simpa [collectUrls, List.filterMap_cons, List.filter_cons,
                    hs, hie, hst] using ih

/-- The collection loop keeps *every* element exactly when each element's
effective URL is present, non-empty and carries the domain marker. -/
theorem collectUrls_length_eq_iff :
    ∀ els : List ImgElement,
      (collectUrls els).length = els.length ↔
        ∀ e ∈ els, ∃ s, effectiveUrl e = some s ∧ s.isEmpty = false ∧
          strContains s marker = true := by
  intro els
  induction els with
  | nil => simp [collectUrls]
  | cons e rest ih =>
      cases hs : effectiveUrl e with
      | none =>
          have hstep : collectUrls (e :: rest) = collectUrls rest := by
            simp [collectUrls, List.filterMap_cons, hs]
          rw [hstep, List.length_cons]
          constructor
          · intro h
            have hle := collectUrls_length_le rest
            exact absurd h (by omega)
          · intro h
            obtain ⟨s, hs', _⟩ := h e (by simp)
            rw [hs] at hs'
            cases hs'
      | some s =>
          cases hie : s.isEmpty with
          | true =>
              have hstep : collectUrls (e :: rest) = collectUrls rest := by
                simp [collectUrls, List.filterMap_cons, hs, hie]
              rw [hstep, List.length_cons]
              constructor
              · intro h
                have hle := collectUrls_length_le rest
                exact absurd h (by omega)
              · intro h
                obtain ⟨s', hs', hne, _⟩ := h e (by simp)
                rw [hs] at hs'
                injection hs' with hss
                rw [← hss] at hne
                rw [hie] at hne
                exact Bool.noConfusion hne
          | false =>
              cases hst : strContains s marker with
              | true =>
                  have hstep : collectUrls (e :: rest) =
                      s :: collectUrls rest := by
                    simp [collectUrls, List.filterMap_cons, hs, hie, hst]
                  rw [hstep, List.length_cons, List.length_cons]
                  constructor
                  · intro h x hx
                    rcases List.mem_cons.mp hx with rfl | hx
                    · exact ⟨s, hs, hie, hst⟩
                    · exact (ih.mp (by omega)) x hx
                  · intro h
                    have := ih.mpr
                      (fun x hx => h x (List.mem_cons_of_mem e hx))
                    omega
              | false =>
                  have hstep : collectUrls (e :: rest) = collectUrls rest := by
                    simp [collectUrls, List.filterMap_cons, hs, hie, hst]
                  rw [hstep, List.length_cons]
                  constructor
                  · intro h
                    have hle := collectUrls_length_le rest
                    exact absurd h (by omega)
                  · intro h
                    obtain ⟨s', hs', _, hm⟩ := h e (by simp)
                    rw [hs] at hs'
                    injection hs' with hss
                    rw [← hss] at hm
                    rw [hst] at hm
                    exact Bool.noConfusion hm

/-- C4 (amended): when the primary domain-marked selector matches nothing
and the reader-container selector matches 4 elements, extraction works on
those 4 elements and returns, in document order, exactly those of their
effective URLs (`src`, else `data-src`) that are non-empty and contain
the domain marker — on mixed pages the marker-less URLs are dropped — and
all 4 URLs come back precisely when every element's effective URL carries
the marker. -/
theorem get_chapter_images_reader_fallback :
    ∀ (page : List ImgElement),
      selPrimary page = [] →
      (selReaderMain page).length = 4 →
      (get_chapter_images (PageLoad.loaded page) =
        ((selReaderMain page).filterMap effectiveUrl).filter
          (fun s => !s.isEmpty && strContains s marker)) ∧
      ((get_chapter_images (PageLoad.loaded page)).length = 4 ↔
        ∀ e ∈ selReaderMain page, ∃ s, effectiveUrl e = some s ∧
          s.isEmpty = false ∧ strContains s marker = true) := by
  intro page h1 h4
  have hne : (selReaderMain page).isEmpty = false :=
    isEmpty_eq_false_of_ne_nil (by
      intro h; rw [h] at h4; simp at h4)
  have hres : get_chapter_images (PageLoad.loaded page) =
      collectUrls (selReaderMain page) := by
    simp [get_chapter_images, h1, hne]
  constructor
  · rw [hres, collectUrls_eq_filter]
  · rw [hres, ← h4]
    exact collectUrls_length_eq_iff (selReaderMain page)

/-- Witness: four reader-container images carrying the marker in
`data-src` — the filtering equation holds and the length-4 equivalence is
established at this page. -/
theorem get_chapter_images_reader_fallback_witness :
    (get_chapter_images (PageLoad.loaded lazyReaderPage) =
      ((selReaderMain lazyReaderPage).filterMap effectiveUrl).filter
        (fun s => !s.isEmpty && strContains s marker)) ∧
    ((get_chapter_images (PageLoad.loaded lazyReaderPage)).length = 4 ↔
      ∀ e ∈ selReaderMain lazyReaderPage, ∃ s, effectiveUrl e = some s ∧
        s.isEmpty = false ∧ strContains s marker = true) :=
  get_chapter_images_reader_fallback lazyReaderPage (by decide) (by decide)

/-- C4 counterexample: a page whose four reader-container images point
off-site (so the primary selector matches nothing and no URL carries the
domain marker) — the claim demands those 4 URLs back, but extraction
returns `[]`. -/
theorem reader_fallback_counterexample :
    selPrimary offSiteReaderPage = [] ∧
    (selReaderMain offSiteReaderPage).length = 4 ∧
    get_chapter_images (PageLoad.loaded offSiteReaderPage) = [] := by
  decide

/-- C5: with a driver and a non-empty extracted URL list, the boolean
result of `download_chapter` is `success_count > 0`; concretely, when
pages 2 and 4 of five fail permanently (never writing a byte) the call
returns `true` and exactly the three files `page_001.jpg`, `page_003.jpg`,
`page_005.jpg` are produced. -/
theorem download_chapter_partial_success :
    (∀ (env : ChapterEnv) (chapterName : Option String) (now : Nat),
      env.driverOk = true →
      get_chapter_images env.page ≠ [] →
      ((download_chapter env chapterName now).success = true ↔
        0 < (downloadLoopGo env.fetch (get_chapter_images env.page) 1).1)) ∧
    ((download_chapter envPartial none 0).success = true ∧
      (download_chapter envPartial none 0).files.map Prod.fst =
        [pageFilename 1, pageFilename 3, pageFilename 5] ∧
      (download_chapter envPartial none 0).files.length = 3) := by
  constructor
  · intro env chapterName now hdr hurls
    have hne := isEmpty_eq_false_of_ne_nil hurls
    simp [download_chapter, hdr, hne]
  · decide

/-- Witness: the success policy applied to the concrete 2-of-5
environment. -/
theorem download_chapter_partial_success_witness :
    (download_chapter envPartial none 0).success = true ↔
      0 < (downloadLoopGo envPartial.fetch
        (get_chapter_images envPartial.page) 1).1 :=
  download_chapter_partial_success.1 envPartial none 0 rfl (by decide)

/-- When the first attempt succeeds (and at least one attempt is allowed),
`download_image` returns `True` with the content written and a single
attempt in the trace. -/
theorem download_image_first_ok (env : Nat → AttemptOutcome)
    (retries : Int) (hpos : 0 < retries.toNat) (c : List Nat)
    (h : env 0 = AttemptOutcome.ok c) :
    download_image env retries none =
      { success := true, fileState := some c,
        events := [FetchEvent.attempt 0] } := by
  obtain ⟨r, hr⟩ : ∃ r, retries.toNat = r + 1 := ⟨retries.toNat - 1, by omega⟩
  unfold download_image
  rw [hr]
  simp [downloadImageGo, h]

/-- The per-image loop under zero failures: every page succeeds, and the
files are `page_{i:03d}.jpg, page_{i+1:03d}.jpg, …` in page order. -/
theorem downloadLoopGo_all_ok (fetch : Nat → Nat → AttemptOutcome)
    (h : ∀ i, ∃ c, fetch i 0 = AttemptOutcome.ok c) :
    ∀ (urls : List String) (i : Nat),
      (downloadLoopGo fetch urls i).1 = urls.length ∧
      (downloadLoopGo fetch urls i).2.2.map Prod.fst =
        (List.range urls.length).map (fun j => pageFilename (i + j)) := by
  intro urls
  induction urls with
  | nil => intro i; simp [downloadLoopGo]
  | cons u rest ih =>
      intro i
      obtain ⟨c, hc⟩ := h i
      obtain ⟨ih1, ih2⟩ := ih (i + 1)
      have hd := download_image_first_ok (fetch i) 3 (by decide) c hc
      constructor
      · simp [downloadLoopGo, hd, ih1]
        omega
      · have hstep : (downloadLoopGo fetch (u :: rest) i).2.2 =
            (pageFilename i, c) :: (downloadLoopGo fetch rest (i + 1)).2.2 := by
          simp [downloadLoopGo, hd]
        rw [hstep, List.map_cons, ih2, List.length_cons,
          List.range_succ_eq_map, List.map_cons, List.map_map]
        congr 1
        refine List.map_congr_left ?_
        intro j _
        show pageFilename (i + 1 + j) = pageFilename (i + (j + 1))
        congr 1
        omega

/-- C6: when the driver starts, every image's first fetch attempt
succeeds, and extraction finds at least one URL, `download_chapter`
returns success and the chapter directory holds exactly one file per
extracted URL, named `page_001.jpg … page_{N:03d}.jpg` in extraction
order. -/
theorem download_chapter_all_success :
    ∀ (env : ChapterEnv) (chapterName : Option String) (now : Nat),
      env.driverOk = true →
      (∀ i, ∃ c, env.fetch i 0 = AttemptOutcome.ok c) →
      get_chapter_images env.page ≠ [] →
      (download_chapter env chapterName now).success = true ∧
      (download_chapter env chapterName now).files.map Prod.fst =
        (List.range (get_chapter_images env.page).length).map
          (fun j => pageFilename (1 + j)) := by
  intro env chapterName now hdr hok hurls
  have hne := isEmpty_eq_false_of_ne_nil hurls
  obtain ⟨h1, h2⟩ :=
    downloadLoopGo_all_ok env.fetch hok (get_chapter_images env.page) 1
  have hlen : 0 < (get_chapter_images env.page).length :=
    List.length_pos.mpr hurls
  constructor
  · simp [download_chapter, hdr, hne, h1, hlen]
  · simp [download_chapter, hdr, hne, h2]

/-- Witness: five images, no failures — five files named
`page_001.jpg … page_005.jpg`, and overall success. -/
theorem download_chapter_all_success_witness :
    (download_chapter envAllOk none 0).success = true ∧
    (download_chapter envAllOk none 0).files.map Prod.fst =
      (List.range (get_chapter_images envAllOk.page).length).map
        (fun j => pageFilename (1 + j)) :=
  download_chapter_all_success envAllOk none 0 rfl
    (fun i => ⟨[i], rfl⟩) (by decide)

/-- C7: when extraction yields zero image URLs, `download_chapter`
returns `False` and creates no page files. -/
theorem download_chapter_no_images :
    ∀ (env : ChapterEnv) (chapterName : Option String) (now : Nat),
      env.driverOk = true →
      get_chapter_images env.page = [] →
      (download_chapter env chapterName now).success = false ∧
      (download_chapter env chapterName now).files = [] := by
  intro env chapterName now hdr h
  have hemp : (get_chapter_images env.page).isEmpty = true := by
    rw [h]; rfl
  simp [download_chapter, hdr, hemp]

/-- Witness: a timed-out page load gives zero URLs, failure, no files. -/
theorem download_chapter_no_images_witness :
    (download_chapter envNoImages none 0).success = false ∧
    (download_chapter envNoImages none 0).files = [] :=
  download_chapter_no_images envNoImages none 0 rfl rfl

/-- C9 (amended): `download_chapter` acquires the session *first*; the
chapter name is resolved and its directory created only after a successful
acquisition, so when acquisition fails no directory has been created. -/
theorem session_acquired_before_mkdir :
    ∀ (env : ChapterEnv) (chapterName : Option String) (now : Nat),
      (env.driverOk = false →
        (download_chapter env chapterName now).events =
          [ChapterEvent.createDriver false, ChapterEvent.quitDriverCall,
           ChapterEvent.sleepSec 5]) ∧
      (env.driverOk = true →
        ∃ rest, (download_chapter env chapterName now).events =
          ChapterEvent.createDriver true ::
            ChapterEvent.mkdirChapter (resolveName chapterName now) ::
              rest) := by
  intro env chapterName now
  constructor
  · intro hdr
    simp [download_chapter, hdr, quit_driver]
  · intro hdr
    cases hurls : (get_chapter_images env.page).isEmpty with
    | true =>
        refine ⟨[ChapterEvent.extractImages, ChapterEvent.quitDriverCall,
          ChapterEvent.driverQuit, ChapterEvent.sleepSec 5], ?_⟩
        simp [download_chapter, hdr, hurls, quit_driver_some]
    | false =>
        refine ⟨ChapterEvent.extractImages ::
          ((downloadLoopGo env.fetch (get_chapter_images env.page) 1).2.1 ++
            [ChapterEvent.quitDriverCall, ChapterEvent.driverQuit,
             ChapterEvent.sleepSec 5]), ?_⟩
        simp [download_chapter, hdr, hurls, quit_driver_some]

/-- Witness: with a working driver, acquisition is immediately followed by
directory creation for the resolved name. -/
theorem session_acquired_before_mkdir_witness :
    ∃ rest, (download_chapter envAllOk (some "ch") 7).events =
      ChapterEvent.createDriver true ::
        ChapterEvent.mkdirChapter (resolveName (some "ch") 7) :: rest :=
  (session_acquired_before_mkdir envAllOk (some "ch") 7).2 rfl

/-- C9 counterexample: when `create_driver` raises, the trace shows the
acquisition attempt and teardown but no directory creation — the chapter
directory has *not* already been created, contrary to the claim. -/
theorem driver_before_dir_counterexample :
    (download_chapter envNoDriver (some "ch1") 0).events =
      [ChapterEvent.createDriver false, ChapterEvent.quitDriverCall,
       ChapterEvent.sleepSec 5] ∧
    countEv (download_chapter envNoDriver (some "ch1") 0).events
      (ChapterEvent.mkdirChapter "ch1") = 0 := by
  decide

end MangaparkDl
